import Mathlib

/-
Verification development for the orbitrs/examples repository.

The examples implement, in several variants, a small reactive-state pattern:
a base value (count) held in a thread-safe cell, with derived values
(square, is_even) recomputed on every mutation, plus component lifecycle
glue (props updates, callbacks, render).

Modelling conventions used throughout this file:
- Rust i32 values are modelled as Lean Int.  No scenario exercised by the
  claims approaches the i32 range boundary, and every derived value is
  recomputed with the same operations on both sides of each equation, so
  wrap-around does not affect the truth of any statement proved here.
- A std::sync lock (RwLock / Mutex) fails exactly when it is poisoned by a
  prior panicking holder.  Each lock in a modelled component therefore
  carries an explicit Boolean poison flag in the state; acquiring the lock
  succeeds iff the flag is false.  No code in the examples changes a poison
  flag (no modelled code panics), so operations leave the flags unchanged.
- Functions that mutate state through interior mutability are modelled as
  state-passing functions.  When a Rust function can mutate part of the
  state and then return an error (the mutation is not rolled back), the
  model returns the post-state together with the Except result.
- Calls to println! are pure logging and are not modelled.
-/

/-- Embeds orbit::component::ComponentError as used by the examples
(MountError, UpdateError, RenderError variants with a message). -/
inductive ComponentError where
  | mountError (msg : String)
  | updateError (msg : String)
  | renderError (msg : String)
deriving DecidableEq, Repr

namespace RCExample

/-- State of ReactiveCounter from src/reactive_counter_example.rs: the base
count and the two derived cells square and is_even, each behind an
Arc\x3cRwLock\x3e modelled by a value plus a poison flag.  squareEvals is ghost
instrumentation counting how many times the square derivation (the
multiplication count * count) has been evaluated. -/
structure RCState where
  count : Int
  square : Int
  isEven : Bool
  squareEvals : Nat
  countPoisoned : Bool
  squarePoisoned : Bool
  isEvenPoisoned : Bool
deriving DecidableEq, Repr

/-- Embeds ReactiveCounter::create (src/reactive_counter_example.rs lines
31-52): fresh unpoisoned locks, count = props.initial, square computed once
as initial * initial, is_even from that same square value. -/
def create (initial : Int) : RCState :=
  { count := initial
    square := initial * initial
    isEven := initial * initial % 2 == 0
    squareEvals := 1
    countPoisoned := false
    squarePoisoned := false
    isEvenPoisoned := false }

/-- Embeds ReactiveCounter::increment (lines 132-154): acquire the count
write lock (fail with UpdateError if poisoned), increment count, compute
new_square = count * count, then write square and is_even in turn, failing
with UpdateError if either lock is poisoned.  Note that when the square or
is_even lock is poisoned, count has already been mutated and keeps its new
value while the function returns the error. -/
def increment (s : RCState) : RCState × Except ComponentError Unit :=
  if s.countPoisoned then
    (s, Except.error (ComponentError.updateError "Failed to update count"))
  else
    let count' := s.count + 1
    let newSquare := count' * count'
    let s1 : RCState := { s with count := count', squareEvals := s.squareEvals + 1 }
    if s.squarePoisoned then
      (s1, Except.error (ComponentError.updateError "Failed to update square"))
    else
      let s2 : RCState := { s1 with square := newSquare }
      if s.isEvenPoisoned then
        (s2, Except.error (ComponentError.updateError "Failed to update is_even"))
      else
        ({ s2 with isEven := newSquare % 2 == 0 }, Except.ok ())

/-- Embeds ReactiveCounter::decrement (lines 157-179): same as increment
with count - 1. -/
def decrement (s : RCState) : RCState × Except ComponentError Unit :=
  if s.countPoisoned then
    (s, Except.error (ComponentError.updateError "Failed to update count"))
  else
    let count' := s.count - 1
    let newSquare := count' * count'
    let s1 : RCState := { s with count := count', squareEvals := s.squareEvals + 1 }
    if s.squarePoisoned then
      (s1, Except.error (ComponentError.updateError "Failed to update square"))
    else
      let s2 : RCState := { s1 with square := newSquare }
      if s.isEvenPoisoned then
        (s2, Except.error (ComponentError.updateError "Failed to update is_even"))
      else
        ({ s2 with isEven := newSquare % 2 == 0 }, Except.ok ())

/-- Embeds ReactiveCounter::update (lines 73-97): acquire the count write
lock, set count = props.initial, compute new_square = props.initial *
props.initial, then write square and is_even, failing with UpdateError on a
poisoned lock (count, and possibly square, keep their already-written new
values in that case). -/
def update (s : RCState) (initial : Int) : RCState × Except ComponentError Unit :=
  if s.countPoisoned then
    (s, Except.error (ComponentError.updateError "Failed to update count"))
  else
    let newSquare := initial * initial
    let s1 : RCState := { s with count := initial, squareEvals := s.squareEvals + 1 }
    if s.squarePoisoned then
      (s1, Except.error (ComponentError.updateError "Failed to update square"))
    else
      let s2 : RCState := { s1 with square := newSquare }
      if s.isEvenPoisoned then
        (s2, Except.error (ComponentError.updateError "Failed to update is_even"))
      else
        ({ s2 with isEven := newSquare % 2 == 0 }, Except.ok ())

/-- Embeds ReactiveCounter::get_count (lines 182-187): returns the count,
or the fallback value -1 when the lock is poisoned (the Rust signature is
a plain i32 with no error channel). -/
def get_count (s : RCState) : Int :=
  if s.countPoisoned then -1 else s.count

/-- Embeds ReactiveCounter::get_square (lines 190-195): Ok(square), or
RenderError when the lock is poisoned. -/
def get_square (s : RCState) : Except ComponentError Int :=
  if s.squarePoisoned then
    Except.error (ComponentError.renderError "Failed to read square")
  else
    Except.ok s.square

/-- Embeds ReactiveCounter::is_square_even (lines 198-203): Ok(is_even), or
RenderError when the lock is poisoned. -/
def is_square_even (s : RCState) : Except ComponentError Bool :=
  if s.isEvenPoisoned then
    Except.error (ComponentError.renderError "Failed to read is_even")
  else
    Except.ok s.isEven

/-- States reachable from create by sequences of update, increment and
decrement calls that complete successfully (return Ok). -/
inductive Reachable : RCState → Prop where
  | created (i : Int) : Reachable (create i)
  | upd (s : RCState) (i : Int) (s' : RCState) : Reachable s →
      update s i = (s', Except.ok ()) → Reachable s'
  | inc (s s' : RCState) : Reachable s →
      increment s = (s', Except.ok ()) → Reachable s'
  | dec (s s' : RCState) : Reachable s →
      decrement s = (s', Except.ok ()) → Reachable s'

end RCExample

namespace AdvancedCounter

/-- State of AdvancedCounter from src/advanced_state_management.rs: count,
square and is_even behind RwLocks, shared_total behind a Mutex, each lock
modelled with a poison flag. -/
structure AdvState where
  count : Int
  square : Int
  isEven : Bool
  sharedTotal : Int
  countPoisoned : Bool
  sharedPoisoned : Bool
  squarePoisoned : Bool
  isEvenPoisoned : Bool
deriving DecidableEq, Repr

/-- Embeds AdvancedCounter::create (src/advanced_state_management.rs lines
34-52): fresh unpoisoned locks, square = initial * initial, is_even from
that value; shared_total is the Mutex passed in through props. -/
def create (initial : Int) (sharedTotal : Int) : AdvState :=
  { count := initial
    square := initial * initial
    isEven := initial * initial % 2 == 0
    sharedTotal := sharedTotal
    countPoisoned := false
    sharedPoisoned := false
    squarePoisoned := false
    isEvenPoisoned := false }

/-- Embeds AdvancedCounter::increment (lines 136-158).  The function
returns unit in Rust: every lock acquisition is an if-let-Ok with no else
branch, so a poisoned inner lock silently skips that single field's update
and the function still returns normally; a poisoned count lock skips the
whole body. -/
def increment (s : AdvState) : AdvState :=
  if s.countPoisoned then s
  else
    let count' := s.count + 1
    let s1 : AdvState := { s with count := count' }
    let s2 : AdvState :=
      if s.sharedPoisoned then s1 else { s1 with sharedTotal := s1.sharedTotal + 1 }
    let newSquare := count' * count'
    let s3 : AdvState :=
      if s.squarePoisoned then s2 else { s2 with square := newSquare }
    if s.isEvenPoisoned then s3 else { s3 with isEven := newSquare % 2 == 0 }

/-- Embeds AdvancedCounter::decrement (lines 162-184): same shape as
increment with count - 1 and shared_total - 1. -/
def decrement (s : AdvState) : AdvState :=
  if s.countPoisoned then s
  else
    let count' := s.count - 1
    let s1 : AdvState := { s with count := count' }
    let s2 : AdvState :=
      if s.sharedPoisoned then s1 else { s1 with sharedTotal := s1.sharedTotal - 1 }
    let newSquare := count' * count'
    let s3 : AdvState :=
      if s.squarePoisoned then s2 else { s2 with square := newSquare }
    if s.isEvenPoisoned then s3 else { s3 with isEven := newSquare % 2 == 0 }

/-- Embeds AdvancedCounter::update (lines 79-102): set count =
props.initial under the count write lock, then write square and is_even,
returning UpdateError if any of the three locks is poisoned (shared_total
is not touched by update). -/
def update (s : AdvState) (initial : Int) : AdvState × Except ComponentError Unit :=
  if s.countPoisoned then
    (s, Except.error (ComponentError.updateError "Failed to update count"))
  else
    let squareValue := initial * initial
    let s1 : AdvState := { s with count := initial }
    if s.squarePoisoned then
      (s1, Except.error (ComponentError.updateError "Failed to update square"))
    else
      let s2 : AdvState := { s1 with square := squareValue }
      if s.isEvenPoisoned then
        (s2, Except.error (ComponentError.updateError "Failed to update is_even"))
      else
        ({ s2 with isEven := squareValue % 2 == 0 }, Except.ok ())

/-- No lock of the AdvancedCounter is poisoned, so that increment and
decrement (which return unit and cannot report failure) perform every one
of their updates, i.e. complete successfully. -/
def noPoison (s : AdvState) : Prop :=
  s.countPoisoned = false ∧ s.sharedPoisoned = false ∧
    s.squarePoisoned = false ∧ s.isEvenPoisoned = false

/-- States reachable from create by update calls that return Ok and
increment and decrement calls in which every lock acquisition succeeded. -/
inductive Reachable : AdvState → Prop where
  | created (i t : Int) : Reachable (create i t)
  | upd (s : AdvState) (i : Int) (s' : AdvState) : Reachable s →
      update s i = (s', Except.ok ()) → Reachable s'
  | inc (s : AdvState) : Reachable s → noPoison s → Reachable (increment s)
  | dec (s : AdvState) : Reachable s → noPoison s → Reachable (decrement s)

end AdvancedCounter

/-- Embeds SharedStateComponent::render (src/advanced_state_management.rs
lines 245-253) restricted to the value it displays: the shared total read
under the Mutex, or the fallback value -1 when the Mutex is poisoned. -/
def SharedStateComponent.render (poisoned : Bool) (total : Int) : Int :=
  if poisoned then -1 else total

namespace Counter

/-- Props of the Counter component from src/component_lifecycle.rs: the
initial value and an optional on_change callback (modelled by whether the
callback is present; its invocations are returned as a list of the values
it was called with). -/
structure CLProps where
  initial : Int
  has_on_change : Bool
deriving DecidableEq, Repr

/-- State of the Counter component from src/component_lifecycle.rs: the
stored props, the count behind an Arc\x3cRwLock\x3e (with poison flag), and the
plain double_count field. -/
structure CLState where
  props : CLProps
  count : Int
  double_count : Int
  countPoisoned : Bool
deriving DecidableEq, Repr

/-- Embeds Counter::create (src/component_lifecycle.rs lines 39-52):
count = props.initial behind a fresh lock, double_count precomputed as
props.initial * 2. -/
def create (props : CLProps) : CLState :=
  { props := props
    count := props.initial
    double_count := props.initial * 2
    countPoisoned := false }

/-- Embeds Counter::update (lines 87-113).  If the new initial differs
from the stored props' initial: acquire the count write lock (UpdateError
if poisoned, with self.props left unchanged), set count = props.initial
and double_count = props.initial * 2, and invoke the new props' on_change
callback with props.initial if it is present.  Then (in both branches)
store the new props and return Ok.  The third component of the result
lists the values the on_change callback was invoked with, in order. -/
def update (s : CLState) (newProps : CLProps) :
    CLState × Except ComponentError Unit × List Int :=
  if s.props.initial ≠ newProps.initial then
    if s.countPoisoned then
      (s, Except.error (ComponentError.updateError "Failed to write to count"), [])
    else
      ({ s with
          count := newProps.initial
          double_count := newProps.initial * 2
          props := newProps },
       Except.ok (),
       if newProps.has_on_change then [newProps.initial] else [])
  else
    ({ s with props := newProps }, Except.ok (), [])

end Counter

/-- Lock and user-closure events used to model the temporal order of
operations inside the state-mutating methods, for the locking-discipline
claim.  An acquire event is emitted when a lock method returns Ok; the
matching release event is emitted where Rust drops the guard (end of the
enclosing block). -/
inductive Ev where
  | acquireCount
  | writeCount
  | writeDoubleCount
  | invokeOnChange
  | releaseCount
  | acquireShared
  | writeShared
  | releaseShared
  | acquireSquare
  | writeSquare
  | releaseSquare
  | acquireIsEven
  | writeIsEven
  | releaseIsEven
deriving DecidableEq, BEq, Repr

/-- The count lock is held just before index i of the trace: strictly more
acquisitions than releases of it have occurred among the first i events. -/
def heldAt (t : List Ev) (i : Nat) : Bool :=
  decide ((t.take i).count Ev.releaseCount < (t.take i).count Ev.acquireCount)

/-- Events that run user-supplied closures or acquire a lock other than
the base count lock (the events the locking discipline says must happen
only after the count lock is released). -/
def userClosureOrOtherLock : Ev → Bool
  | Ev.invokeOnChange => true
  | Ev.acquireShared => true
  | Ev.acquireSquare => true
  | Ev.acquireIsEven => true
  | _ => false

/-- Some event of the trace runs a user closure or acquires another lock
while the count lock is held. -/
def lockHeldViolation (t : List Ev) : Bool :=
  (List.range t.length).any fun i =>
    match t[i]? with
    | some e => userClosureOrOtherLock e && heldAt t i
    | none => false

/-- Event trace of Counter::increment (src/component_lifecycle.rs lines
171-187) on the success path with an on_change callback present: the write
guard is taken, count is incremented, double_count is recomputed, the
callback is invoked, and only then is the guard dropped at the end of the
match arm. -/
def Counter.incrementTrace : List Ev :=
  [Ev.acquireCount, Ev.writeCount, Ev.writeDoubleCount, Ev.invokeOnChange,
   Ev.releaseCount]

/-- Event trace of the differing-initial branch of Counter::update (lines
91-109) with an on_change callback present in the new props: same shape as
increment, the callback runs before the guard is dropped. -/
def Counter.updateTrace : List Ev :=
  [Ev.acquireCount, Ev.writeCount, Ev.writeDoubleCount, Ev.invokeOnChange,
   Ev.releaseCount]

/-- Event trace of AdvancedCounter::increment
(src/advanced_state_management.rs lines 136-158) on the all-locks-succeed
path: the count write guard is taken first and dropped last; the
shared_total Mutex and the square and is_even write locks are each
acquired and released while the count guard is still held. -/
def AdvancedCounter.incrementTrace : List Ev :=
  [Ev.acquireCount, Ev.writeCount,
   Ev.acquireShared, Ev.writeShared, Ev.releaseShared,
   Ev.acquireSquare, Ev.writeSquare, Ev.releaseSquare,
   Ev.acquireIsEven, Ev.writeIsEven, Ev.releaseIsEven,
   Ev.releaseCount]

/-- Embeds orbit::prelude::MouseButton as used by src/props_and_events.rs
(only Left is constructed there). -/
inductive MouseButton where
  | left
  | right
  | middle
deriving DecidableEq, Repr

/-- Embeds MouseEventType from src/props_and_events.rs lines 70-79. -/
inductive MouseEventType where
  | down
  | up
  | move
  | enter
  | leave
  | click
  | doubleClick
deriving DecidableEq, Repr

/-- Embeds MouseEvent from src/props_and_events.rs lines 61-67.  The x and
y fields are f32 in the source; the only values ever constructed are the
exact literals 100.0, represented here by the integer 100 (no floating
arithmetic is performed on them). -/
structure MouseEvent where
  x : Int
  y : Int
  button : MouseButton
  event_type : MouseEventType
deriving DecidableEq, Repr

/-- Embeds ButtonProps from src/props_and_events.rs lines 131-136; the
on_click Option\x3cCallback\x3e is modelled by whether it is present, and its
invocations are returned by render as a list of events passed to it. -/
structure ButtonProps where
  label : String
  disabled : Bool
  primary : Bool
  has_on_click : Bool
deriving DecidableEq, Repr

namespace Button

/-- Embeds Button::render (src/props_and_events.rs lines 308-353)
restricted to its state effects: each call sets click_count to
click_count + 1 through the State cell, and, when on_click is present,
invokes it once with a Click MouseEvent at (100.0, 100.0) with the Left
button.  The result is the new click_count paired with the list of events
the callback was invoked with (node construction and the println! calls
are presentation output with no further state effect). -/
def render (props : ButtonProps) (click_count : Int) : Int × List MouseEvent :=
  (click_count + 1,
   if props.has_on_click then
     [{ x := 100, y := 100, button := MouseButton.left,
        event_type := MouseEventType.click }]
   else [])

/-- click_count after n successive calls of Button::render starting from
click_count = cc. -/
def renderN (props : ButtonProps) : Nat → Int → Int
  | 0, cc => cc
  | Nat.succ n, cc => renderN props n (render props cc).1

end Button

namespace RCScope

/-- Embeds the square derivation closure of the scope-based ReactiveCounter
(src/reactive_counter.rs lines 41-44): it reads the count signal's cell and
multiplies the value by itself. -/
def square_derive (count_value : Int) : Int :=
  count_value * count_value

/-- Embeds the is_even derivation closure (src/reactive_counter.rs lines
47-53): it borrows square's cached Option value directly (square.value,
not square.get()); a Some cache gives square_value % 2 == 0 and a None
cache (square never evaluated) gives false. -/
def is_even_derive (square_cache : Option Int) : Bool :=
  match square_cache with
  | some square_value => square_value % 2 == 0
  | none => false

end RCScope

/-- Modelled from the spec: orbit::state::ReactiveComputed, the engine type
used by src/reactive_counter.rs, is not part of this repository's sources
(only its callers are).  Per spec section 4.2 a Computed holds the
derivation closure, a cached last-computed value (optional until first
read, matching the Option the example borrows from the value field), a
dirty flag, and its dependency bookkeeping.  The dependency valuation is
abstracted as a value of type α read by the derivation; evalCount is ghost
instrumentation counting invocations of the derivation. -/
structure ReactiveComputed (α β : Type) where
  derive : α → β
  value : Option β
  dirty : Bool
  evalCount : Nat

namespace ReactiveComputed

/-- Modelled from the spec: ReactiveComputed::get (spec section 4.2).  If
dirty or never evaluated, re-runs derive on the current dependency values,
caches the result and clears the dirty flag; otherwise returns the cached
value directly without invoking derive. -/
def get {α β : Type} (deps : α) (c : ReactiveComputed α β) :
    β × ReactiveComputed α β :=
  match c.value with
  | some v =>
      if c.dirty then
        let w := c.derive deps
        (w, { c with value := some w, dirty := false, evalCount := c.evalCount + 1 })
      else
        (v, c)
  | none =>
      let w := c.derive deps
      (w, { c with value := some w, dirty := false, evalCount := c.evalCount + 1 })

/-- State of a ReactiveComputed after n successive get calls under the same
dependency valuation (no dependency change in between). -/
def getN {α β : Type} (deps : α) : Nat → ReactiveComputed α β → ReactiveComputed α β
  | 0, c => c
  | Nat.succ n, c => getN deps n (get deps c).2

end ReactiveComputed

/-- C1: for the ReactiveCounter created with initial value 3, the initial
derived state is square = 9 and is_square_even() = Ok false; one increment
succeeds, giving count = 4, square = 16 and is_square_even() = Ok true; the
square derivation count * count was evaluated exactly twice in total over
this sequence (once in create, once in increment). -/
theorem C1_example_scenario :
    (RCExample.create 3).square = 9 ∧
    RCExample.is_square_even (RCExample.create 3) = Except.ok false ∧
    (RCExample.increment (RCExample.create 3)).2 = Except.ok () ∧
    (RCExample.increment (RCExample.create 3)).1.count = 4 ∧
    (RCExample.increment (RCExample.create 3)).1.square = 16 ∧
    RCExample.is_square_even (RCExample.increment (RCExample.create 3)).1 =
      Except.ok true ∧
    (RCExample.increment (RCExample.create 3)).1.squareEvals = 2 :=
  ⟨rfl, rfl, rfl, rfl, rfl, rfl, rfl⟩

/-- Helper: a successful ReactiveCounter::update determines the new count,
square and is_even fields. -/
theorem RCExample.update_ok_eq (s : RCExample.RCState) (i : Int)
    (s' : RCExample.RCState)
    (h : RCExample.update s i = (s', Except.ok ())) :
    s'.count = i ∧ s'.square = i * i ∧ s'.isEven = (i * i % 2 == 0) := by
  cases hc : s.countPoisoned <;> cases hs : s.squarePoisoned <;>
      cases he : s.isEvenPoisoned <;>
    simp [RCExample.update, hc, hs, he, Prod.ext_iff] at h
  subst h
  exact ⟨rfl, rfl, rfl⟩

/-- Helper: a successful ReactiveCounter::increment determines the new
count, square and is_even fields. -/
theorem RCExample.increment_ok_eq (s : RCExample.RCState)
    (s' : RCExample.RCState)
    (h : RCExample.increment s = (s', Except.ok ())) :
    s'.count = s.count + 1 ∧ s'.square = (s.count + 1) * (s.count + 1) ∧
      s'.isEven = ((s.count + 1) * (s.count + 1) % 2 == 0) := by
  cases hc : s.countPoisoned <;> cases hs : s.squarePoisoned <;>
      cases he : s.isEvenPoisoned <;>
    simp [RCExample.increment, hc, hs, he, Prod.ext_iff] at h
  subst h
  exact ⟨rfl, rfl, rfl⟩

/-- Helper: a successful ReactiveCounter::decrement determines the new
count, square and is_even fields. -/
theorem RCExample.decrement_ok_eq (s : RCExample.RCState)
    (s' : RCExample.RCState)
    (h : RCExample.decrement s = (s', Except.ok ())) :
    s'.count = s.count - 1 ∧ s'.square = (s.count - 1) * (s.count - 1) ∧
      s'.isEven = ((s.count - 1) * (s.count - 1) % 2 == 0) := by
  cases hc : s.countPoisoned <;> cases hs : s.squarePoisoned <;>
      cases he : s.isEvenPoisoned <;>
    simp [RCExample.decrement, hc, hs, he, Prod.ext_iff] at h
  subst h
  exact ⟨rfl, rfl, rfl⟩

/-- Helper: the derived-value invariant holds in every reachable state of
the ReactiveCounter. -/
theorem RCExample.reachable_inv (s : RCExample.RCState)
    (h : RCExample.Reachable s) :
    s.square = s.count * s.count ∧ s.isEven = (s.square % 2 == 0) := by
  induction h with
  | created i => exact ⟨rfl, rfl⟩
  | upd s i s' _hr heq _ih =>
      obtain ⟨h1, h2, h3⟩ := RCExample.update_ok_eq s i s' heq
      rw [h1, h2, h3]
      exact ⟨rfl, rfl⟩
  | inc s s' _hr heq _ih =>
      obtain ⟨h1, h2, h3⟩ := RCExample.increment_ok_eq s s' heq
      rw [h1, h2, h3]
      exact ⟨rfl, rfl⟩
  | dec s s' _hr heq _ih =>
      obtain ⟨h1, h2, h3⟩ := RCExample.decrement_ok_eq s s' heq
      rw [h1, h2, h3]
      exact ⟨rfl, rfl⟩

/-- Helper: a successful AdvancedCounter::update determines the new count,
square and is_even fields. -/
theorem AdvancedCounter.adv_update_ok_eq (s : AdvancedCounter.AdvState) (i : Int)
    (s' : AdvancedCounter.AdvState)
    (h : AdvancedCounter.update s i = (s', Except.ok ())) :
    s'.count = i ∧ s'.square = i * i ∧ s'.isEven = (i * i % 2 == 0) := by
  cases hc : s.countPoisoned <;> cases hs : s.squarePoisoned <;>
      cases he : s.isEvenPoisoned <;>
    simp [AdvancedCounter.update, hc, hs, he, Prod.ext_iff] at h
  subst h
  exact ⟨rfl, rfl, rfl⟩

/-- Helper: the derived-value invariant holds in every reachable state of
the AdvancedCounter. -/
theorem AdvancedCounter.adv_reachable_inv (s : AdvancedCounter.AdvState)
    (h : AdvancedCounter.Reachable s) :
    s.square = s.count * s.count ∧ s.isEven = (s.square % 2 == 0) := by
  induction h with
  | created i t => exact ⟨rfl, rfl⟩
  | upd s i s' _hr heq _ih =>
      obtain ⟨h1, h2, h3⟩ := AdvancedCounter.adv_update_ok_eq s i s' heq
      rw [h1, h2, h3]
      exact ⟨rfl, rfl⟩
  | inc s _hr hp _ih =>
      obtain ⟨h1, h2, h3, h4⟩ := hp
      simp [AdvancedCounter.increment, h1, h2, h3, h4]
  | dec s _hr hp _ih =>
      obtain ⟨h1, h2, h3, h4⟩ := hp
      simp [AdvancedCounter.decrement, h1, h2, h3, h4]

/-- C2: in every state of the thread-safe counters reachable by create and
by update, increment and decrement operations that complete successfully,
the cached derived values equal what their derivations produce from the
current base value: square = count * count and is_even = (square % 2 == 0);
no reader of the derived cells observes a stale cache. -/
theorem C2_no_stale_cache :
    (∀ s : RCExample.RCState, RCExample.Reachable s →
        s.square = s.count * s.count ∧ s.isEven = (s.square % 2 == 0)) ∧
    (∀ a : AdvancedCounter.AdvState, AdvancedCounter.Reachable a →
        a.square = a.count * a.count ∧ a.isEven = (a.square % 2 == 0)) :=
  ⟨fun s h => RCExample.reachable_inv s h,
   fun a h => AdvancedCounter.adv_reachable_inv a h⟩

/-- Witness for C2 at the concrete reachable states create 3 and
create 5 0. -/
theorem C2_no_stale_cache_witness :
    ((RCExample.create 3).square =
        (RCExample.create 3).count * (RCExample.create 3).count ∧
      (RCExample.create 3).isEven = ((RCExample.create 3).square % 2 == 0)) ∧
    ((AdvancedCounter.create 5 0).square =
        (AdvancedCounter.create 5 0).count * (AdvancedCounter.create 5 0).count ∧
      (AdvancedCounter.create 5 0).isEven =
        ((AdvancedCounter.create 5 0).square % 2 == 0)) :=
  ⟨C2_no_stale_cache.1 _ (RCExample.Reachable.created 3),
   C2_no_stale_cache.2 _ (AdvancedCounter.Reachable.created 5 0)⟩

/-- Helper: get on a clean Computed (not dirty, cache present) returns the
cached value and leaves the Computed unchanged. -/
theorem ReactiveComputed.get_of_clean {α β : Type} (deps : α)
    (c : ReactiveComputed α β) (v : β) (hd : c.dirty = false)
    (hv : c.value = some v) :
    ReactiveComputed.get deps c = (v, c) := by
  obtain ⟨d, val, dir, n⟩ := c
  simp only at hd hv
  subst hd
  subst hv
  rfl

/-- Helper: getN on a clean Computed is the identity. -/
theorem ReactiveComputed.getN_of_clean {α β : Type} (deps : α) (n : Nat)
    (c : ReactiveComputed α β) (v : β) (hd : c.dirty = false)
    (hv : c.value = some v) :
    ReactiveComputed.getN deps n c = c := by
  induction n with
  | zero => rfl
  | succ n ih =>
      simp only [ReactiveComputed.getN]
      rw [ReactiveComputed.get_of_clean deps c v hd hv]
      exact ih

/-- Helper: after any get, the Computed is clean (not dirty, cache holds
the returned value). -/
theorem ReactiveComputed.get_snd_clean {α β : Type} (deps : α)
    (c : ReactiveComputed α β) :
    (ReactiveComputed.get deps c).2.dirty = false ∧
      (ReactiveComputed.get deps c).2.value =
        some (ReactiveComputed.get deps c).1 := by
  obtain ⟨d, val, dir, n⟩ := c
  cases val <;> cases dir <;> simp [ReactiveComputed.get]

/-- Helper: a single get invokes the derivation at most once. -/
theorem ReactiveComputed.get_evalCount_le {α β : Type} (deps : α)
    (c : ReactiveComputed α β) :
    (ReactiveComputed.get deps c).2.evalCount ≤ c.evalCount + 1 := by
  obtain ⟨d, val, dir, n⟩ := c
  cases val <;> cases dir <;> simp [ReactiveComputed.get]

/-- C3: memoization of a Computed.  If no dependency changed since the last
get (the Computed is not dirty and holds a cached value), a further get
returns the cached value without invoking the derivation and leaves the
Computed unchanged; and over any number of get calls under one dependency
valuation the derivation runs at most once, no matter how many readers
call get. -/
theorem C3_memoization :
    (∀ (α β : Type) (deps : α) (c : ReactiveComputed α β) (v : β),
        c.dirty = false → c.value = some v →
        ReactiveComputed.get deps c = (v, c)) ∧
    (∀ (α β : Type) (deps : α) (n : Nat) (c : ReactiveComputed α β),
        (ReactiveComputed.getN deps n c).evalCount ≤ c.evalCount + 1) := by
  constructor
  · intro α β deps c v hd hv
    exact ReactiveComputed.get_of_clean deps c v hd hv
  · intro α β deps n c
    cases n with
    | zero => exact Nat.le_succ _
    | succ n =>
        have hc := ReactiveComputed.get_snd_clean deps c
        have hstable : ReactiveComputed.getN deps n (ReactiveComputed.get deps c).2 =
            (ReactiveComputed.get deps c).2 :=
          ReactiveComputed.getN_of_clean deps n _ _ hc.1 hc.2
        simp only [ReactiveComputed.getN]
        rw [hstable]
        exact ReactiveComputed.get_evalCount_le deps c

/-- Witness for C3: a clean Computed with cached 9 is returned unchanged,
and five reads of a fresh square Computed evaluate the derivation once. -/
theorem C3_memoization_witness :
    ReactiveComputed.get (0 : Int)
        (⟨fun c => c * c, some 9, false, 1⟩ : ReactiveComputed Int Int) =
      (9, (⟨fun c => c * c, some 9, false, 1⟩ : ReactiveComputed Int Int)) ∧
    (ReactiveComputed.getN (3 : Int) 5
        (⟨fun c => c * c, none, true, 0⟩ : ReactiveComputed Int Int)).evalCount ≤
      0 + 1 :=
  ⟨C3_memoization.1 Int Int 0 _ 9 rfl rfl, C3_memoization.2 Int Int 3 5 _⟩

/-- C4 counterexample: already in the Counter::increment execution, a user
closure (the on_change callback) runs at a point of the trace where the
count write lock is still held, so the claimed discipline fails: the trace
is not free of lock-held violations. -/
theorem C4_counterexample : ¬ (lockHeldViolation Counter.incrementTrace = false) := by
  decide

/-- C4 amended: in Counter::increment and Counter::update the on_change
callback is invoked while the count write lock is still held, and in
AdvancedCounter::increment the shared_total, square and is_even locks are
acquired while the count write lock is held; the value is not copied out
and the lock released before user closures or derived-value updates run. -/
theorem C4_lock_held_during_user_closures :
    heldAt Counter.incrementTrace 3 = true ∧
    Counter.incrementTrace[3]? = some Ev.invokeOnChange ∧
    heldAt Counter.updateTrace 3 = true ∧
    Counter.updateTrace[3]? = some Ev.invokeOnChange ∧
    heldAt AdvancedCounter.incrementTrace 2 = true ∧
    AdvancedCounter.incrementTrace[2]? = some Ev.acquireShared ∧
    heldAt AdvancedCounter.incrementTrace 5 = true ∧
    AdvancedCounter.incrementTrace[5]? = some Ev.acquireSquare ∧
    heldAt AdvancedCounter.incrementTrace 8 = true ∧
    AdvancedCounter.incrementTrace[8]? = some Ev.acquireIsEven ∧
    lockHeldViolation AdvancedCounter.incrementTrace = true := by
  decide

/-- C5 counterexample: it is not the case that every read operation reports
a poisoned lock to its caller: ReactiveCounter::get_count on a state whose
count lock is poisoned returns the fallback value -1 instead. -/
theorem C5_counterexample :
    ¬ (∀ s : RCExample.RCState, s.countPoisoned = true →
        RCExample.get_count s ≠ -1) := by
  intro h
  exact h { RCExample.create 3 with countPoisoned := true } rfl rfl

/-- C5 amended: the derived-value readers get_square and is_square_even do
report a poisoned lock as an error to the caller, but get_count returns the
fallback value -1 and SharedStateComponent::render substitutes -1 for the
shared total when its lock is poisoned. -/
theorem C5_amended_fallbacks :
    (∀ s : RCExample.RCState, s.squarePoisoned = true →
        RCExample.get_square s =
          Except.error (ComponentError.renderError "Failed to read square")) ∧
    (∀ s : RCExample.RCState, s.isEvenPoisoned = true →
        RCExample.is_square_even s =
          Except.error (ComponentError.renderError "Failed to read is_even")) ∧
    (∀ s : RCExample.RCState, s.countPoisoned = true →
        RCExample.get_count s = -1) ∧
    (∀ t : Int, SharedStateComponent.render true t = -1) := by
  refine ⟨fun s h => ?_, fun s h => ?_, fun s h => ?_, fun t => rfl⟩ <;>
    simp [RCExample.get_square, RCExample.is_square_even, RCExample.get_count, h]

/-- Witness for C5 amended at concrete poisoned states. -/
theorem C5_amended_fallbacks_witness :
    RCExample.get_square { RCExample.create 3 with squarePoisoned := true } =
      Except.error (ComponentError.renderError "Failed to read square") ∧
    RCExample.is_square_even { RCExample.create 3 with isEvenPoisoned := true } =
      Except.error (ComponentError.renderError "Failed to read is_even") ∧
    RCExample.get_count { RCExample.create 3 with countPoisoned := true } = -1 ∧
    SharedStateComponent.render true 7 = -1 :=
  ⟨C5_amended_fallbacks.1 _ rfl, C5_amended_fallbacks.2.1 _ rfl,
   C5_amended_fallbacks.2.2.1 _ rfl, C5_amended_fallbacks.2.2.2 7⟩

/-- C6: the state-mutating operations of the thread-safe ReactiveCounter
succeed exactly when none of the underlying locks is poisoned by a prior
panicking writer; a poisoned lock (reported as an UpdateError lock-failure
error) is the only failure mode, and with no poisoned lock each operation
returns Ok. -/
theorem C6_fail_iff_poisoned :
    ∀ (s : RCExample.RCState) (i : Int),
      ((RCExample.increment s).2 = Except.ok () ↔
        (s.countPoisoned = false ∧ s.squarePoisoned = false ∧
          s.isEvenPoisoned = false)) ∧
      ((RCExample.decrement s).2 = Except.ok () ↔
        (s.countPoisoned = false ∧ s.squarePoisoned = false ∧
          s.isEvenPoisoned = false)) ∧
      ((RCExample.update s i).2 = Except.ok () ↔
        (s.countPoisoned = false ∧ s.squarePoisoned = false ∧
          s.isEvenPoisoned = false)) := by
  intro s i
  cases hc : s.countPoisoned <;> cases hs : s.squarePoisoned <;>
      cases he : s.isEvenPoisoned <;>
    simp [RCExample.increment, RCExample.decrement, RCExample.update, hc, hs, he]

/-- Witness for C6 at the concrete unpoisoned state create 3. -/
theorem C6_fail_iff_poisoned_witness :
    ((RCExample.increment (RCExample.create 3)).2 = Except.ok () ↔
      ((RCExample.create 3).countPoisoned = false ∧
        (RCExample.create 3).squarePoisoned = false ∧
        (RCExample.create 3).isEvenPoisoned = false)) ∧
    ((RCExample.decrement (RCExample.create 3)).2 = Except.ok () ↔
      ((RCExample.create 3).countPoisoned = false ∧
        (RCExample.create 3).squarePoisoned = false ∧
        (RCExample.create 3).isEvenPoisoned = false)) ∧
    ((RCExample.update (RCExample.create 3) 5).2 = Except.ok () ↔
      ((RCExample.create 3).countPoisoned = false ∧
        (RCExample.create 3).squarePoisoned = false ∧
        (RCExample.create 3).isEvenPoisoned = false)) :=
  C6_fail_iff_poisoned (RCExample.create 3) 5

/-- C7: Counter::update with an unpoisoned count lock.  When the new
props' initial differs from the stored one, count becomes the new initial,
double_count becomes its double, and the on_change callback of the new
props is invoked exactly once with the new value (not at all when absent);
when the initials are equal, count and double_count are unchanged and the
callback is not invoked. -/
theorem C7_update_props_behaviour :
    ∀ (s : Counter.CLState) (p : Counter.CLProps),
      s.countPoisoned = false →
      ((s.props.initial ≠ p.initial →
          (Counter.update s p).1.count = p.initial ∧
          (Counter.update s p).1.double_count = p.initial * 2 ∧
          (Counter.update s p).2.1 = Except.ok () ∧
          (p.has_on_change = true → (Counter.update s p).2.2 = [p.initial]) ∧
          (p.has_on_change = false → (Counter.update s p).2.2 = [])) ∧
       (s.props.initial = p.initial →
          (Counter.update s p).1.count = s.count ∧
          (Counter.update s p).1.double_count = s.double_count ∧
          (Counter.update s p).2.2 = [])) := by
  intro s p hc
  by_cases hne : s.props.initial = p.initial
  · constructor
    · intro h
      exact absurd hne h
    · intro _
      simp [Counter.update, hne]
  · constructor
    · intro _
      cases hoc : p.has_on_change <;>
        simp [Counter.update, hne, hc, hoc]
    · intro h
      exact absurd h hne

/-- Witness for C7: updating from initial 0 to initial 10 with a callback
sets count 10, double_count 20 and one callback invocation with 10;
updating with equal initial invokes no callback. -/
theorem C7_update_props_behaviour_witness :
    (Counter.update (Counter.create ⟨0, true⟩) ⟨10, true⟩).1.count = 10 ∧
    (Counter.update (Counter.create ⟨0, true⟩) ⟨10, true⟩).1.double_count = 10 * 2 ∧
    (Counter.update (Counter.create ⟨0, true⟩) ⟨10, true⟩).2.2 = [10] ∧
    (Counter.update (Counter.create ⟨0, true⟩) ⟨0, true⟩).2.2 = [] := by
  have h := C7_update_props_behaviour (Counter.create ⟨0, true⟩) ⟨10, true⟩ rfl
  have h2 := C7_update_props_behaviour (Counter.create ⟨0, true⟩) ⟨0, true⟩ rfl
  exact ⟨(h.1 (by decide)).1, (h.1 (by decide)).2.1,
    (h.1 (by decide)).2.2.2.1 rfl, (h2.2 rfl).2.2⟩

/-- C8: AdvancedCounter::increment returns unit, so it never reports
failure; when the count write lock succeeds the count is incremented even
if the shared_total, square or is_even lock subsequently fails, in which
case that field silently keeps its stale value (the update is not atomic);
when the count write lock fails, no field changes at all. -/
theorem C8_partial_update :
    ∀ s : AdvancedCounter.AdvState,
      (s.countPoisoned = true → AdvancedCounter.increment s = s) ∧
      (s.countPoisoned = false →
        (AdvancedCounter.increment s).count = s.count + 1 ∧
        (s.sharedPoisoned = true →
          (AdvancedCounter.increment s).sharedTotal = s.sharedTotal) ∧
        (s.squarePoisoned = true →
          (AdvancedCounter.increment s).square = s.square) ∧
        (s.isEvenPoisoned = true →
          (AdvancedCounter.increment s).isEven = s.isEven)) := by
  intro s
  constructor
  · intro h
    simp [AdvancedCounter.increment, h]
  · intro h
    cases h2 : s.sharedPoisoned <;> cases h3 : s.squarePoisoned <;>
        cases h4 : s.isEvenPoisoned <;>
      simp [AdvancedCounter.increment, h, h2, h3, h4]

/-- Witness for C8: with a poisoned count lock the state is unchanged; with
a poisoned square lock the count still increments while square is stale. -/
theorem C8_partial_update_witness :
    AdvancedCounter.increment { AdvancedCounter.create 5 0 with countPoisoned := true } =
      { AdvancedCounter.create 5 0 with countPoisoned := true } ∧
    (AdvancedCounter.increment { AdvancedCounter.create 5 0 with squarePoisoned := true }).count =
      { AdvancedCounter.create 5 0 with squarePoisoned := true }.count + 1 ∧
    (AdvancedCounter.increment { AdvancedCounter.create 5 0 with squarePoisoned := true }).square =
      { AdvancedCounter.create 5 0 with squarePoisoned := true }.square :=
  ⟨(C8_partial_update _).1 rfl,
   ((C8_partial_update _).2 rfl).1,
   ((C8_partial_update _).2 rfl).2.2.1 rfl⟩

/-- C9: the is_even derivation of the scope-based ReactiveCounter reads
square's cached Option directly; with an empty cache (square never
evaluated) it yields false regardless of the count, which can disagree
with whether count * count is actually even. -/
theorem C9_is_even_reads_cache :
    RCScope.is_even_derive none = false ∧
    (∃ c : Int, RCScope.is_even_derive none ≠ (RCScope.square_derive c % 2 == 0)) :=
  ⟨rfl, ⟨2, by decide⟩⟩

/-- Helper: n successive Button::render calls add n to click_count. -/
theorem Button.renderN_eq (props : ButtonProps) (n : Nat) (cc : Int) :
    Button.renderN props n cc = cc + n := by
  induction n generalizing cc with
  | zero => simp [Button.renderN]
  | succ n ih =>
      simp only [Button.renderN, Button.render]
      rw [ih]
      omega

/-- C10: Button::render is not a pure read.  Every call increments
click_count by exactly 1; when on_click is present it is invoked exactly
once with a Click MouseEvent at (100.0, 100.0) (Left button) and not at
all otherwise; n successive renders leave click_count at its initial value
plus n. -/
theorem C10_render_state_effects :
    ∀ (props : ButtonProps) (cc : Int),
      (Button.render props cc).1 = cc + 1 ∧
      (props.has_on_click = true →
        (Button.render props cc).2 =
          [{ x := 100, y := 100, button := MouseButton.left,
             event_type := MouseEventType.click }]) ∧
      (props.has_on_click = false → (Button.render props cc).2 = []) ∧
      (∀ n : Nat, Button.renderN props n cc = cc + n) := by
  intro props cc
  refine ⟨rfl, fun h => ?_, fun h => ?_, fun n => Button.renderN_eq props n cc⟩ <;>
    simp [Button.render, h]

/-- Witness for C10: a render with a callback present goes from
click_count 0 to 1 and emits one Click event at (100, 100); five renders
add five. -/
theorem C10_render_state_effects_witness :
    (Button.render ⟨"Button", false, false, true⟩ 0).1 = 0 + 1 ∧
    (Button.render ⟨"Button", false, false, true⟩ 0).2 =
      [{ x := 100, y := 100, button := MouseButton.left,
         event_type := MouseEventType.click }] ∧
    Button.renderN ⟨"Button", false, false, true⟩ 5 0 = 0 + 5 :=
  ⟨(C10_render_state_effects ⟨"Button", false, false, true⟩ 0).1,
   (C10_render_state_effects ⟨"Button", false, false, true⟩ 0).2.1 rfl,
   (C10_render_state_effects ⟨"Button", false, false, true⟩ 0).2.2.2 5⟩
